import Mathlib

/-!
Verification of the lifecycle controller and configuration reconciler of
`internal/vault/operator_client.go` (bank-vaults). The Go code is shallowly
embedded: the external key-value store and the Vault admin API are modelled
as oracles (pure functions giving the result of each remote call), and each
operation of the core is a Lean function that returns its result together
with the trace of key-store operations it performed.
-/

set_option autoImplicit false

deriving instance DecidableEq for Except

namespace BankVaults

/-- `Config` from the source: the configuration of the Vault initialization.
Go `int` fields are embedded as `Int`. -/
structure Config where
  SecretShares : Int
  SecretThreshold : Int
  InitRootToken : String
  StoreRootToken : Bool
  PreFlightChecks : Bool
deriving DecidableEq

/-- Result of a `KVService.Get` call: the stored bytes, a not-found error
(`isNotFoundError` holds), or any other store error. -/
inductive GetResult where
  | found (v : String)
  | nf
  | storeError (e : String)
deriving DecidableEq

/-- The external `KVService` capability, as an oracle: what `Get` returns for
each key, and whether `Set` of a given key/value succeeds (`none`) or fails
with an error (`some e`). -/
structure KVStore where
  get : String → GetResult
  setResult : String → String → Option String

/-- One key-store operation performed by the core (for trace reasoning). -/
inductive KVOp where
  | get (key : String)
  | set (key : String) (val : String)
deriving DecidableEq

/-- `unsealKeyForID` from the source: `fmt.Sprint("vault-unseal-", i)`. -/
def unsealKeyForID (i : Nat) : String :=
  "vault-unseal-" ++ toString i

/-- `recoveryKeyForID` from the source: `fmt.Sprint("vault-recovery-", i)`. -/
def recoveryKeyForID (i : Nat) : String :=
  "vault-recovery-" ++ toString i

/-- `rootTokenKey` from the source. -/
def rootTokenKey : String := "vault-root"

/-- `testKey` from the source. -/
def testKey : String := "vault-test"

/-- `keyStoreNotFound` from the source: `Get` the key; a not-found error
gives `(true, nil)`; success gives `(false, nil)`; any other error gives
`(false, err)`. -/
def keyStoreNotFound (st : KVStore) (key : String) : Bool × Option String :=
  match st.get key with
  | GetResult.nf => (true, none)
  | GetResult.found _ => (false, none)
  | GetResult.storeError e => (false, some e)

/-- `keyStoreSet` from the source: set the key only if `keyStoreNotFound`
reported not-found; an existing key is a conflict error; any other store
error is wrapped. Returns the result and the trace of store operations. -/
def keyStoreSet (st : KVStore) (key val : String) : Except String Unit × List KVOp :=
  let r := keyStoreNotFound st key
  if r.1 then
    match st.setResult key val with
    | none => (Except.ok (), [KVOp.get key, KVOp.set key val])
    | some e => (Except.error e, [KVOp.get key, KVOp.set key val])
  else if r.2 = none then
    (Except.error ("error setting key " ++ key ++ ": it already exists"), [KVOp.get key])
  else
    (Except.error ("error setting key " ++ key), [KVOp.get key])

/-- `kvTester.Test` from the source: `Get` the key; a store error other than
not-found is returned; otherwise (found or not-found) `Set(key, key)` is
called unconditionally. -/
def kvTest (st : KVStore) (key : String) : Except String Unit × List KVOp :=
  match st.get key with
  | GetResult.storeError e => (Except.error e, [KVOp.get key])
  | _ =>
    match st.setResult key key with
    | none => (Except.ok (), [KVOp.get key, KVOp.set key key])
    | some e => (Except.error e, [KVOp.get key, KVOp.set key key])

/-- `New` from the source: fails exactly when `SecretShares < SecretThreshold`;
the handle itself carries no further data relevant here, so success is `ok`. -/
def New (config : Config) : Except String Unit :=
  if config.SecretShares < config.SecretThreshold then
    Except.error ("the secret threshold cannot be bigger than the shares")
  else
    Except.ok ()

/-- `api.SealStatusResponse`, restricted to the fields `Unseal` inspects. -/
structure SealStatusResponse where
  Sealed : Bool
  Progress : Int
deriving DecidableEq

/-- Outcome of the `Unseal` loop: success, fatal key-store fetch failure at
index `i`, fatal transport failure at index `i`, the bad-key signal at index
`i` (sealed with progress 0), or fuel exhaustion (the Go loop is unbounded). -/
inductive UnsealOutcome where
  | ok
  | keyErr (i : Nat)
  | remoteErr (i : Nat)
  | badKey (i : Nat)
  | outOfFuel
deriving DecidableEq

/-- `Unseal` from the source, as a fuel-indexed loop starting at share index
`i`. `uc` is the admin API unseal-call oracle. Returns the outcome together
with the list of share indices attempted (fetched from the key store). -/
def UnsealModel (st : KVStore) (uc : String → Except String SealStatusResponse) :
    Nat → Nat → UnsealOutcome × List Nat
  | 0, _ => (UnsealOutcome.outOfFuel, [])
  | fuel+1, i =>
    match st.get (unsealKeyForID i) with
    | GetResult.found k =>
      match uc k with
      | Except.error _ => (UnsealOutcome.remoteErr i, [i])
      | Except.ok resp =>
        if resp.Sealed = false then (UnsealOutcome.ok, [i])
        else if resp.Progress = 0 then (UnsealOutcome.badKey i, [i])
        else
          let rest := UnsealModel st uc fuel (i+1)
          (rest.1, i :: rest.2)
    | GetResult.nf => (UnsealOutcome.keyErr i, [i])
    | GetResult.storeError _ => (UnsealOutcome.keyErr i, [i])

/-- `api.InitResponse`, restricted to the fields `Init` uses. -/
structure InitResponse where
  Keys : List String
  RecoveryKeys : List String
  RootToken : String
deriving DecidableEq

/-- Admin API oracle for `Init`: the init-status query, the remote init
call, the stream of `SealStatus` results observed by the post-init wait
loop, and the results of the create-orphan and revoke-self token calls. -/
structure InitEnv where
  initStatus : Except String Bool
  doInit : Except String InitResponse
  sealedSeq : Nat → Except String Bool
  createOrphanResult : Except String Unit
  revokeResult : Except String Unit

/-- `Sealed` from the source: on a status-query error it returns
`(false, some err)`; on success `(resp.Sealed, none)`. -/
def SealedModel (r : Except String Bool) : Bool × Option String :=
  match r with
  | Except.error e => (false, some ("error checking status: " ++ e))
  | Except.ok b => (b, none)

/-- The post-init wait loop of `Init`: at poll `n` it calls `Sealed` (the
`n`-th element of the status stream) and breaks as soon as the returned
`sealed` boolean is `false`; otherwise it sleeps `initWaitSeconds` and polls
again. Returns the index of the poll at which the loop exits (`none` when
the fuel runs out). The number of sleeps performed equals that index. -/
def waitForUnseal (seq : Nat → Except String Bool) : Nat → Nat → Option Nat
  | 0, _ => none
  | fuel+1, n =>
    if (SealedModel (seq n)).1 = false then some n
    else waitForUnseal seq fuel (n+1)

/-- The wait interval of the post-init loop: `wait := time.Second * 2`. -/
def initWaitSeconds : Nat := 2

/-- The pre-init existence check of `Init`: for each key, call
`keyStoreNotFound`; the branch `notFound && err != nil` reports a check
failure, the branch `!notFound && err == nil` reports an existing key;
otherwise the loop continues with the next key. -/
def checkKeys (st : KVStore) : List String → Except String Unit × List KVOp
  | [] => (Except.ok (), [])
  | key :: rest =>
    let r := keyStoreNotFound st key
    if r.1 ∧ r.2 ≠ none then
      (Except.error ("error before init: checking key " ++ key ++ " failed"), [KVOp.get key])
    else if ¬r.1 ∧ r.2 = none then
      (Except.error ("error before init: value for key " ++ key ++ " already exists"), [KVOp.get key])
    else
      let rest' := checkKeys st rest
      (rest'.1, KVOp.get key :: rest'.2)

/-- The share-persisting loops of `Init`: store each share of the list under
`mkKey i` (indices from `i0`) via `keyStoreSet`; the first failure is fatal. -/
def storeShareList (st : KVStore) (mkKey : Nat → String) :
    List String → Nat → Except String Unit × List KVOp
  | [], _ => (Except.ok (), [])
  | k :: rest, i =>
    match keyStoreSet st (mkKey i) k with
    | (Except.error e, ops) =>
      (Except.error ("error storing key " ++ mkKey i ++ ": " ++ e), ops)
    | (Except.ok _, ops) =>
      let rest' := storeShareList st mkKey rest (i+1)
      (rest'.1, ops ++ rest'.2)

/-- Result of `Init`: success, an error, or divergence of the unbounded
post-init wait loop (fuel exhaustion). -/
inductive InitResult where
  | ok
  | err (e : String)
  | outOfFuel
deriving DecidableEq

/-- Observable outcome of `Init`: the result, the trace of key-store
operations, whether the remote init call was invoked, and at which poll the
post-init wait loop exited (when it ran). -/
structure InitOut where
  result : InitResult
  ops : List KVOp
  remoteInitCalled : Bool
  waitExitPoll : Option Nat
deriving DecidableEq

/-- The root-token storage epilogue of `Init`. When `StoreRootToken` is set
it stores `resp.RootToken` (exactly as the source does — note the source
passes `resp.RootToken`, not the local `rootToken` variable, to
`keyStoreSet`; `rootToken` appears only in the error message); otherwise it
stores nothing. -/
def initStoreRoot (st : KVStore) (config : Config) (resp : InitResponse)
    (rootToken : String) (ops : List KVOp) (w : Option Nat) : InitOut :=
  if config.StoreRootToken then
    match keyStoreSet st rootTokenKey resp.RootToken with
    | (Except.error e, sOps) =>
      ⟨InitResult.err ("error storing root token " ++ rootToken ++ " in key " ++
          rootTokenKey ++ ": " ++ e), ops ++ sOps, true, w⟩
    | (Except.ok _, sOps) => ⟨InitResult.ok, ops ++ sOps, true, w⟩
  else
    ⟨InitResult.ok, ops, true, w⟩

/-- `Init` from the source: the already-initialized guard, the optional
pre-flight `kvTest` probe, the pre-init existence check over the root-token
key and unseal keys `0..SecretShares` (inclusive), the remote init call, the
unseal- and recovery-share persisting loops, the fixed-root-token branch
(wait for unseal, create orphan token, revoke the generated token), and the
root-token storage epilogue. `fuel` bounds only the unbounded wait loop. -/
def InitModel (env : InitEnv) (st : KVStore) (config : Config) (fuel : Nat) : InitOut :=
  match env.initStatus with
  | Except.error e =>
    ⟨InitResult.err ("error testing if vault is initialized: " ++ e), [], false, none⟩
  | Except.ok true => ⟨InitResult.ok, [], false, none⟩
  | Except.ok false =>
    match (if config.PreFlightChecks then kvTest st testKey else (Except.ok (), [])) with
    | (Except.error e, ops) =>
      ⟨InitResult.err ("error testing keystore before init: " ++ e), ops, false, none⟩
    | (Except.ok _, pfOps) =>
      let keys := rootTokenKey ::
        (List.range (config.SecretShares + 1).toNat).map unsealKeyForID
      match checkKeys st keys with
      | (Except.error e, ckOps) => ⟨InitResult.err e, pfOps ++ ckOps, false, none⟩
      | (Except.ok _, ckOps) =>
        let ops0 := pfOps ++ ckOps
        match env.doInit with
        | Except.error e =>
          ⟨InitResult.err ("error initializing vault: " ++ e), ops0, true, none⟩
        | Except.ok resp =>
          match storeShareList st unsealKeyForID resp.Keys 0 with
          | (Except.error e, ops) => ⟨InitResult.err e, ops0 ++ ops, true, none⟩
          | (Except.ok _, usOps) =>
            match storeShareList st recoveryKeyForID resp.RecoveryKeys 0 with
            | (Except.error e, ops) =>
              ⟨InitResult.err e, ops0 ++ usOps ++ ops, true, none⟩
            | (Except.ok _, rcOps) =>
              let ops1 := ops0 ++ usOps ++ rcOps
              if config.InitRootToken ≠ "" then
                match waitForUnseal env.sealedSeq fuel 0 with
                | none => ⟨InitResult.outOfFuel, ops1, true, none⟩
                | some n =>
                  match env.createOrphanResult with
                  | Except.error e =>
                    ⟨InitResult.err ("unable to setup requested root token, temporary root token: " ++
                        resp.RootToken ++ ": " ++ e), ops1, true, some n⟩
                  | Except.ok _ =>
                    match env.revokeResult with
                    | Except.error e =>
                      ⟨InitResult.err ("unable to revoke temporary root token: " ++ e),
                        ops1, true, some n⟩
                    | Except.ok _ =>
                      initStoreRoot st config resp config.InitRootToken ops1 (some n)
              else
                initStoreRoot st config resp resp.RootToken ops1 none

/-- Observable outcome of `Configure`: the result, the token the admin
client held while the configuration sub-steps ran (`none` when it was never
set), the admin client token after return, and how many configuration
sub-steps were executed. -/
structure ConfigureOut where
  result : Except String Unit
  tokenDuring : Option String
  finalToken : String
  stepsRun : Nat
deriving DecidableEq

/-- Run the configuration sub-steps of `Configure` in order, stopping at the
first failure; returns the overall result and the number of steps executed. -/
def runSteps : List (Except String Unit) → Except String Unit × Nat
  | [] => (Except.ok (), 0)
  | s :: rest =>
    match s with
    | Except.error e => (Except.error e, 1)
    | Except.ok _ =>
      let r := runSteps rest
      (r.1, r.2 + 1)

/-- `Configure` from the source: fetch the root token from the key store
(any `Get` error is fatal, before the client token is touched); on success
set the client token to it and register the deferred `SetToken("")`; then
unmarshal the document and run the sub-steps in order, each failure
short-circuiting; on every exit path past the fetch the deferred clear runs,
so the final client token is the empty string. `steps` is the oracle of
sub-step outcomes and `tok0` the client token before the call. -/
def ConfigureModel (st : KVStore) (unmarshalResult : Except String Unit)
    (steps : List (Except String Unit)) (tok0 : String) : ConfigureOut :=
  match st.get rootTokenKey with
  | GetResult.found tok =>
    match unmarshalResult with
    | Except.error e =>
      ⟨Except.error ("error loading externalConfig: " ++ e), some tok, "", 0⟩
    | Except.ok _ =>
      let r := runSteps steps
      ⟨r.1, some tok, "", r.2⟩
  | GetResult.nf =>
    ⟨Except.error ("unable to get key " ++ rootTokenKey), none, tok0, 0⟩
  | GetResult.storeError e =>
    ⟨Except.error ("unable to get key " ++ rootTokenKey ++ ": " ++ e), none, tok0, 0⟩

/-- A group alias as stored by the server: its id, name, and the accessor of
the auth mount it belongs to. -/
structure GroupAlias where
  id : String
  name : String
  mount_accessor : String
deriving DecidableEq

/-- `findVaultGroupAliasIDFromNameAndMount` from the source: scan all
existing aliases and return the id of the first whose name AND mount
accessor both match; the empty string when none matches (or the alias list
is empty). -/
def findVaultGroupAliasIDFromNameAndMount (aliases : List GroupAlias)
    (name accessor : String) : String :=
  match aliases with
  | [] => ""
  | a :: rest =>
    if a.name = name ∧ a.mount_accessor = accessor then a.id
    else findVaultGroupAliasIDFromNameAndMount rest name accessor

/-- The write the group-alias reconciliation loop issues for one desired
alias: create a new alias, or tune the alias with the matched id. -/
inductive AliasAction where
  | create (name : String) (accessor : String) (canonicalId : String)
  | tune (id : String) (name : String) (accessor : String) (canonicalId : String)
deriving DecidableEq

/-- The per-alias body of `configureIdentityGroups` from the source, after
the mount accessor and canonical group id have been resolved: look up a
matching alias by (name, mount accessor); an empty result creates, a
non-empty result tunes in place via the id. -/
def applyGroupAlias (existing : List GroupAlias) (name accessor canonicalId : String) :
    AliasAction :=
  let ga := findVaultGroupAliasIDFromNameAndMount existing name accessor
  if ga = "" then AliasAction.create name accessor canonicalId
  else AliasAction.tune ga name accessor canonicalId

/-- Modelled from the spec: the server side of the alias endpoints (external
to this repository). Creating appends a new alias under a fresh
server-assigned id; tuning rewrites the alias with the given id in place. -/
def serverApplyAlias (st : List GroupAlias) (freshId : String) (act : AliasAction) :
    List GroupAlias :=
  match act with
  | AliasAction.create n acc _ => st ++ [⟨freshId, n, acc⟩]
  | AliasAction.tune id n acc _ =>
    st.map (fun a => if a.id = id then ⟨id, n, acc⟩ else a)

/-- A Go `map[string]interface{}` record restricted to string-or-nil values,
as an association list: a key may be absent, present with a nil value
(`some none`), or present with a string (`some (some s)`). -/
def assocFind : List (String × Option String) → String → Option (Option String)
  | [], _ => none
  | (k, v) :: rest, key => if k = key then some v else assocFind rest key

/-- Go map indexing `m[key]`: an absent key yields the zero value `nil`,
indistinguishable from a stored nil. -/
def goMapGet (m : List (String × Option String)) (key : String) : Option String :=
  match assocFind m key with
  | some v => v
  | none => none

/-- `getOrError` from the source: `value := m[key]; if value != nil { return
cast.ToStringE(value) }; return "", error` — the error fires exactly when the
indexed value is nil (key absent or value nil); any string, including the
empty string, is returned as-is. -/
def getOrError (m : List (String × Option String)) (key : String) :
    Except String String :=
  match goMapGet m key with
  | some v => Except.ok v
  | none => Except.error ("value for " ++ key ++ " is not set")

/-- `api.RegisterPluginInput`, with the parsed plugin type kept as the string
accepted by the parser. -/
structure RegisterPluginInput where
  Name : String
  Command : String
  SHA256 : String
  PluginType : String
deriving DecidableEq

/-- The per-plugin body of `configurePlugins` from the source: the four
`getOrError` lookups in source order, then the plugin-type parse (the parser
`consts.ParsePluginType` is an external dependency, passed as an oracle),
then the `RegisterPluginInput` handed to registration. -/
def processPlugin (parseType : String → Except String String)
    (plugin : List (String × Option String)) : Except String RegisterPluginInput :=
  match getOrError plugin "command" with
  | Except.error e => Except.error ("error getting command for plugin: " ++ e)
  | Except.ok command =>
    match getOrError plugin "plugin_name" with
    | Except.error e => Except.error ("error getting plugin_name for plugin: " ++ e)
    | Except.ok pluginName =>
      match getOrError plugin "sha256" with
      | Except.error e => Except.error ("error getting sha256 for plugin: " ++ e)
      | Except.ok sha =>
        match getOrError plugin "type" with
        | Except.error e => Except.error ("error getting type for plugin: " ++ e)
        | Except.ok typeRaw =>
          match parseType typeRaw with
          | Except.error e => Except.error ("error parsing type for plugin: " ++ e)
          | Except.ok pt => Except.ok ⟨pluginName, command, sha, pt⟩

/-- Whether a trace contains a `Set` of the given key. -/
def setsKey (ops : List KVOp) (key : String) : Bool :=
  ops.any (fun op => match op with
    | KVOp.set k _ => k == key
    | KVOp.get _ => false)

/-! Concrete fixtures used by the closed theorems and witnesses. -/

/-- A `Set` oracle that always succeeds. -/
def okSet : String → String → Option String := fun _ _ => none

/-- A key store with no stored keys. -/
def emptyStore : KVStore := ⟨fun _ => GetResult.nf, okSet⟩

/-- A key store seeded with the root-token key. -/
def seededStore : KVStore :=
  ⟨fun k => if k = rootTokenKey then GetResult.found "tok" else GetResult.nf, okSet⟩

/-- A key store whose root-token key returns a store error distinct from
not-found. -/
def errStore : KVStore :=
  ⟨fun k => if k = rootTokenKey then GetResult.storeError "boom" else GetResult.nf, okSet⟩

/-- A key store already holding the test key. -/
def probeSeededStore : KVStore :=
  ⟨fun k => if k = testKey then GetResult.found "old" else GetResult.nf, okSet⟩

/-- Shares 1, threshold 1, no fixed root token, root token not stored. -/
def baseConfig : Config := ⟨1, 1, "", false, false⟩

/-- Fixed init root token configured and root-token storage enabled. -/
def cfgFixed : Config := ⟨1, 1, "fixed", true, false⟩

/-- No fixed init root token, root-token storage enabled. -/
def cfgStoreNoFixed : Config := ⟨1, 1, "", true, false⟩

/-- No fixed init root token, root-token storage disabled. -/
def cfgNoStore : Config := ⟨1, 1, "", false, false⟩

/-- Five shares but threshold zero. -/
def cfgZeroThreshold : Config := ⟨5, 0, "", false, false⟩

/-- A remote init response: one unseal share, one recovery share, and the
generated root token. -/
def respGen : InitResponse := ⟨["a"], ["r"], "generated"⟩

/-- Admin API oracle for an uninitialized server whose post-init status
polls immediately report unsealed and whose token calls succeed. -/
def envNotInited : InitEnv :=
  ⟨Except.ok false, Except.ok respGen, fun _ => Except.ok false, Except.ok (), Except.ok ()⟩

/-- Admin API oracle for an already-initialized server; every other call
errs, so any use of them would surface. -/
def envInited : InitEnv :=
  ⟨Except.ok true, Except.error "unused", fun _ => Except.error "unused",
    Except.error "unused", Except.error "unused"⟩

/-- Unseal fixture: each unseal key stores its own name; fetching share 9
fails with a store error. -/
def c2store : KVStore :=
  ⟨fun k => if k = unsealKeyForID 9 then GetResult.storeError "boom" else GetResult.found k,
    okSet⟩

/-- Unseal-call fixture: share 1 unseals the server, share 2 is rejected
(sealed with progress 0), every other share makes positive progress. -/
def c2uc : String → Except String SealStatusResponse := fun k =>
  if k = unsealKeyForID 2 then Except.ok ⟨true, 0⟩
  else if k = unsealKeyForID 1 then Except.ok ⟨false, 0⟩
  else Except.ok ⟨true, 2⟩

/-- Unseal fixture where every share fetch succeeds. -/
def c2storeAll : KVStore := ⟨fun k => GetResult.found k, okSet⟩

/-- Unseal-call fixture where every response is sealed with positive
progress. -/
def c2ucAll : String → Except String SealStatusResponse := fun _ => Except.ok ⟨true, 5⟩

/-- A status stream that always errs. -/
def errSeq : Nat → Except String Bool := fun _ => Except.error "connection refused"

/-- A status stream: sealed at polls 0 and 1, unsealed from poll 2 on. -/
def okSeq : Nat → Except String Bool := fun n => Except.ok (decide (n < 2))

/-- Two aliases with the same name on different mounts. -/
def twoAliases : List GroupAlias := [⟨"id0", "svc", "accA"⟩, ⟨"id1", "svc", "accB"⟩]

/-- A plugin record whose `command` is present with the empty string. -/
def emptyCommandPlugin : List (String × Option String) :=
  [("command", some ""), ("plugin_name", some "p"), ("sha256", some "sh"), ("type", some "auth")]

/-- A plugin record whose `command` is present with a nil value. -/
def nilCommandPlugin : List (String × Option String) := [("command", none)]

/-- A plugin-type parser accepting everything (oracle for the external
`consts.ParsePluginType`). -/
def idParseType : String → Except String String := fun t => Except.ok t

/-! The claims. -/

/-- C1: the pre-init existence check. With the root-token key already
present, `Init` fails with the conflict error before invoking remote init
(first conjunct — this part of the claim holds). But when the store returns
an error distinct from not-found for the root-token key, the guard
`notFound && err != nil` cannot fire (`keyStoreNotFound` never returns
`(true, err)` with an error), so the check silently continues and remote
init IS invoked — contradicting the claim that `Init` fails when existence
cannot be determined (second conjunct exhibits the failing input). -/
theorem C1_init_precheck_behaviour :
    ((InitModel envNotInited seededStore baseConfig 3).result =
        InitResult.err "error before init: value for key vault-root already exists" ∧
      (InitModel envNotInited seededStore baseConfig 3).remoteInitCalled = false) ∧
    ((InitModel envNotInited errStore baseConfig 3).result = InitResult.ok ∧
      (InitModel envNotInited errStore baseConfig 3).remoteInitCalled = true) :=
  ⟨⟨rfl, rfl⟩, ⟨rfl, rfl⟩⟩

/-- C3: the root-token storage epilogue of `Init` stores `resp.RootToken`.
With a fixed `InitRootToken` configured and `StoreRootToken` set, the value
persisted under `vault-root` is the generated (and just revoked) token, not
the fixed one — contradicting the claim (first conjunct). With no fixed
token configured the generated token is stored when `StoreRootToken` is set
(second conjunct) and nothing is persisted under any key otherwise (third
conjunct), as the claim states. -/
theorem C3_root_token_storage :
    ((InitModel envNotInited emptyStore cfgFixed 3).result = InitResult.ok ∧
      KVOp.set rootTokenKey "generated" ∈ (InitModel envNotInited emptyStore cfgFixed 3).ops ∧
      KVOp.set rootTokenKey "fixed" ∉ (InitModel envNotInited emptyStore cfgFixed 3).ops) ∧
    (KVOp.set rootTokenKey "generated" ∈
      (InitModel envNotInited emptyStore cfgStoreNoFixed 3).ops) ∧
    (setsKey (InitModel envNotInited emptyStore cfgNoStore 3).ops rootTokenKey = false) := by
  refine ⟨⟨rfl, by decide, by decide⟩, by decide, rfl⟩

/-- C4: the post-init wait loop. With genuine sealed/unsealed statuses it
polls until the first unsealed report (first conjunct), and the interval is
2 seconds (third conjunct). But `Sealed` maps a status-check error to
`(false, err)`, and the loop breaks when that boolean is false, so a
status-check error terminates the wait at once — the second conjunct shows
the loop exiting at poll 0 on an error, contradicting the claim that an
error is treated as still waiting and never terminates the wait. -/
theorem C4_wait_loop_exit :
    (waitForUnseal okSeq 10 0 = some 2 ∧ SealedModel (okSeq 2) = (false, none)) ∧
    (waitForUnseal errSeq 10 0 = some 0 ∧
      SealedModel (errSeq 0) =
        (false, some "error checking status: connection refused")) ∧
    initWaitSeconds = 2 :=
  ⟨⟨by decide, rfl⟩, ⟨by decide, rfl⟩, rfl⟩

/-- C5 counterexample: a configuration with threshold 0 (below 1) is
accepted by `New`, contradicting the claim that construction fails for
every configuration with threshold below 1. -/
theorem C5_threshold_zero_counterexample :
    cfgZeroThreshold.SecretThreshold < 1 ∧ New cfgZeroThreshold = Except.ok () :=
  ⟨by decide, rfl⟩

/-- C5 (amended): construction succeeds exactly when the threshold does not
exceed the shares; the lower bound `threshold ≥ 1` is not checked. -/
theorem C5_new_ok_iff (config : Config) :
    New config = Except.ok () ↔ config.SecretThreshold ≤ config.SecretShares := by
  by_cases h : config.SecretShares < config.SecretThreshold
  · simp only [New, if_pos h]
    constructor
    · intro he
      exact absurd he (by simp)
    · intro hle
      omega
  · simp only [New, if_neg h]
    constructor
    · intro _
      omega
    · intro _
      trivial

/-- C6: when the server reports it is already initialized, `Init` returns
success with an empty key-store trace (zero reads and writes, hence the
store is left unchanged) and without invoking the remote init call. -/
theorem C6_already_initialized_noop (env : InitEnv) (st : KVStore) (config : Config)
    (fuel : Nat) (h : env.initStatus = Except.ok true) :
    InitModel env st config fuel = ⟨InitResult.ok, [], false, none⟩ := by
  unfold InitModel
  rw [h]

/-- C6 witness: a second `Init` against an already-initialized server, on a
concrete environment. -/
theorem C6_already_initialized_noop_witness :
    InitModel envInited emptyStore baseConfig 3 = ⟨InitResult.ok, [], false, none⟩ :=
  C6_already_initialized_noop envInited emptyStore baseConfig 3 rfl

/-- C2: the `Unseal` loop. At any share index: a key-store fetch failure
(not-found or store error) is immediately fatal with only that index
attempted; a response with `sealed=false` returns success at once; a
response with `sealed=true` and progress 0 fails immediately with the
bad-key signal without attempting the next index; a response with
`sealed=true` and positive progress continues with the next index; and when
every response reports sealed with nonzero progress the loop never
terminates (it has no fixed upper bound, so it exhausts any fuel). -/
theorem C2_unseal_loop :
    (∀ (st : KVStore) (uc : String → Except String SealStatusResponse)
        (fuel i : Nat) (e : String),
      (st.get (unsealKeyForID i) = GetResult.nf ∨
        st.get (unsealKeyForID i) = GetResult.storeError e) →
      UnsealModel st uc (fuel+1) i = (UnsealOutcome.keyErr i, [i])) ∧
    (∀ (st : KVStore) (uc : String → Except String SealStatusResponse)
        (fuel i : Nat) (k : String) (resp : SealStatusResponse),
      st.get (unsealKeyForID i) = GetResult.found k → uc k = Except.ok resp →
      resp.Sealed = false →
      UnsealModel st uc (fuel+1) i = (UnsealOutcome.ok, [i])) ∧
    (∀ (st : KVStore) (uc : String → Except String SealStatusResponse)
        (fuel i : Nat) (k : String) (resp : SealStatusResponse),
      st.get (unsealKeyForID i) = GetResult.found k → uc k = Except.ok resp →
      resp.Sealed = true → resp.Progress = 0 →
      UnsealModel st uc (fuel+1) i = (UnsealOutcome.badKey i, [i])) ∧
    (∀ (st : KVStore) (uc : String → Except String SealStatusResponse)
        (fuel i : Nat) (k : String) (resp : SealStatusResponse),
      st.get (unsealKeyForID i) = GetResult.found k → uc k = Except.ok resp →
      resp.Sealed = true → resp.Progress ≠ 0 →
      UnsealModel st uc (fuel+1) i =
        ((UnsealModel st uc fuel (i+1)).1, i :: (UnsealModel st uc fuel (i+1)).2)) ∧
    (∀ (st : KVStore) (uc : String → Except String SealStatusResponse),
      (∀ j : Nat, ∃ (k : String) (resp : SealStatusResponse),
        st.get (unsealKeyForID j) = GetResult.found k ∧ uc k = Except.ok resp ∧
        resp.Sealed = true ∧ resp.Progress ≠ 0) →
      ∀ fuel i : Nat, (UnsealModel st uc fuel i).1 = UnsealOutcome.outOfFuel) := by
  refine ⟨?_, ?_, ?_, ?_, ?_⟩
  · intro st uc fuel i e hor
    cases hor with
    | inl h => simp [UnsealModel, h]
    | inr h => simp [UnsealModel, h]
  · intro st uc fuel i k resp hg hu hs
    simp [UnsealModel, hg, hu, hs]
  · intro st uc fuel i k resp hg hu hs hp
    simp [UnsealModel, hg, hu, hs, hp]
  · intro st uc fuel i k resp hg hu hs hp
    simp [UnsealModel, hg, hu, hs, hp]
  · intro st uc h fuel
    induction fuel with
    | zero =>
      intro i
      simp [UnsealModel]
    | succ n ih =>
      intro i
      obtain ⟨k, resp, hg, hu, hs, hp⟩ := h i
      simp [UnsealModel, hg, hu, hs, hp, ih (i+1)]

/-- C2 witness: the loop behaviour at concrete stores and unseal oracles —
success at share 1, the bad-key signal at share 2 with no further index
attempted, a fatal fetch failure at share 9, continuation from share 0, and
fuel exhaustion when every response makes positive progress. -/
theorem C2_unseal_loop_witness :
    UnsealModel c2store c2uc 3 9 = (UnsealOutcome.keyErr 9, [9]) ∧
    UnsealModel c2store c2uc 3 1 = (UnsealOutcome.ok, [1]) ∧
    UnsealModel c2store c2uc 3 2 = (UnsealOutcome.badKey 2, [2]) ∧
    UnsealModel c2store c2uc 3 0 =
      ((UnsealModel c2store c2uc 2 1).1, 0 :: (UnsealModel c2store c2uc 2 1).2) ∧
    (UnsealModel c2storeAll c2ucAll 4 0).1 = UnsealOutcome.outOfFuel := by
  refine ⟨?_, ?_, ?_, ?_, ?_⟩
  · exact C2_unseal_loop.1 c2store c2uc 2 9 "boom" (Or.inr (by decide))
  · exact C2_unseal_loop.2.1 c2store c2uc 2 1 (unsealKeyForID 1) ⟨false, 0⟩
      (by decide) (by decide) rfl
  · exact C2_unseal_loop.2.2.1 c2store c2uc 2 2 (unsealKeyForID 2) ⟨true, 0⟩
      (by decide) (by decide) rfl rfl
  · exact C2_unseal_loop.2.2.2.1 c2store c2uc 2 0 (unsealKeyForID 0) ⟨true, 2⟩
      (by decide) (by decide) rfl (by decide)
  · exact C2_unseal_loop.2.2.2.2 c2storeAll c2ucAll
      (fun j => ⟨unsealKeyForID j, ⟨true, 5⟩, rfl, rfl, rfl, by decide⟩) 4 0

/-- C7 counterexample: a core key-store write that is not preceded by a
not-found report. With the test key already present, the pre-flight probe
`kvTester.Test` still calls `Set` on it — and succeeds — rather than
surfacing an already-exists conflict, refuting the claim for the probe. -/
theorem C7_test_probe_counterexample :
    probeSeededStore.get testKey = GetResult.found "old" ∧
    kvTest probeSeededStore testKey =
      (Except.ok (), [KVOp.get testKey, KVOp.set testKey testKey]) := by
  refine ⟨by decide, by decide⟩

/-- C7 (amended): every key-store write performed through `keyStoreSet` is
set-if-absent — against an existing key it returns the already-exists
conflict error without calling `Set`, and a `Set` appears in its trace only
when the preceding get reported not-found. The pre-flight test-key probe is
the exception: it calls `Set` unconditionally after its get. -/
theorem C7_keystore_set_if_absent :
    (∀ (st : KVStore) (key val v : String), st.get key = GetResult.found v →
      keyStoreSet st key val =
        (Except.error ("error setting key " ++ key ++ ": it already exists"),
          [KVOp.get key])) ∧
    (∀ (st : KVStore) (key val k2 v2 : String),
      KVOp.set k2 v2 ∈ (keyStoreSet st key val).2 → st.get key = GetResult.nf) := by
  constructor
  · intro st key val v h
    simp [keyStoreSet, keyStoreNotFound, h]
  · intro st key val k2 v2 hmem
    cases hg : st.get key with
    | nf => rfl
    | found v => simp [keyStoreSet, keyStoreNotFound, hg] at hmem
    | storeError e => simp [keyStoreSet, keyStoreNotFound, hg] at hmem

/-- C7 witness: `keyStoreSet` against the seeded root-token key reports the
conflict without writing, and the successful write to an absent key is the
only shape that carries a `Set`. -/
theorem C7_keystore_set_if_absent_witness :
    keyStoreSet seededStore rootTokenKey "v" =
      (Except.error ("error setting key " ++ rootTokenKey ++ ": it already exists"),
        [KVOp.get rootTokenKey]) ∧
    (KVOp.set "a" "b" ∈ (keyStoreSet seededStore rootTokenKey "v").2 →
      seededStore.get rootTokenKey = GetResult.nf) :=
  ⟨C7_keystore_set_if_absent.1 seededStore rootTokenKey "v" "tok" (by decide),
    C7_keystore_set_if_absent.2 seededStore rootTokenKey "v" "a" "b"⟩

/-- C8: `Configure`. When the root token cannot be retrieved from the key
store (not-found or store error) it fails, runs zero configuration
sub-steps, and never touches the client token; when retrieval succeeds the
client token is set to the retrieved root token for the duration of the
call and is the empty string after return on every exit path. -/
theorem C8_configure_token_scope :
    (∀ (st : KVStore) (um : Except String Unit) (steps : List (Except String Unit))
        (tok0 : String),
      (∀ v, st.get rootTokenKey ≠ GetResult.found v) →
      (∃ e, (ConfigureModel st um steps tok0).result = Except.error e) ∧
      (ConfigureModel st um steps tok0).stepsRun = 0 ∧
      (ConfigureModel st um steps tok0).tokenDuring = none ∧
      (ConfigureModel st um steps tok0).finalToken = tok0) ∧
    (∀ (st : KVStore) (um : Except String Unit) (steps : List (Except String Unit))
        (tok0 tok : String),
      st.get rootTokenKey = GetResult.found tok →
      (ConfigureModel st um steps tok0).tokenDuring = some tok ∧
      (ConfigureModel st um steps tok0).finalToken = "") := by
  constructor
  · intro st um steps tok0 h
    cases hg : st.get rootTokenKey with
    | found v => exact absurd hg (h v)
    | nf => simp [ConfigureModel, hg]
    | storeError e => simp [ConfigureModel, hg]
  · intro st um steps tok0 tok h
    cases um with
    | error e => simp [ConfigureModel, h]
    | ok u => simp [ConfigureModel, h]

/-- C8 witness: against an empty store `Configure` fails with no sub-steps
run and the client token untouched; with the root token present, the token
is held during the call and is empty after return even when a sub-step
fails. -/
theorem C8_configure_token_scope_witness :
    ((∃ e, (ConfigureModel emptyStore (Except.ok ()) [] "t0").result = Except.error e) ∧
      (ConfigureModel emptyStore (Except.ok ()) [] "t0").stepsRun = 0 ∧
      (ConfigureModel emptyStore (Except.ok ()) [] "t0").tokenDuring = none ∧
      (ConfigureModel emptyStore (Except.ok ()) [] "t0").finalToken = "t0") ∧
    ((ConfigureModel seededStore (Except.ok ()) [Except.error "boom"] "t0").tokenDuring =
        some "tok" ∧
      (ConfigureModel seededStore (Except.ok ()) [Except.error "boom"] "t0").finalToken =
        "") :=
  ⟨C8_configure_token_scope.1 emptyStore (Except.ok ()) [] "t0"
      (fun v h => by simp [emptyStore] at h),
    C8_configure_token_scope.2 seededStore (Except.ok ()) [Except.error "boom"] "t0" "tok"
      (by decide)⟩

/-- Helper: a non-empty result of the alias scan belongs to an alias whose
name and mount accessor both match. -/
theorem find_alias_matches (aliases : List GroupAlias) (name acc : String)
    (h : findVaultGroupAliasIDFromNameAndMount aliases name acc ≠ "") :
    ∃ a, a ∈ aliases ∧ a.id = findVaultGroupAliasIDFromNameAndMount aliases name acc ∧
      a.name = name ∧ a.mount_accessor = acc := by
  induction aliases with
  | nil => exact absurd rfl h
  | cons a rest ih =>
    by_cases hc : a.name = name ∧ a.mount_accessor = acc
    · refine ⟨a, List.mem_cons_self a rest, ?_, hc.1, hc.2⟩
      simp [findVaultGroupAliasIDFromNameAndMount, hc]
    · rw [findVaultGroupAliasIDFromNameAndMount, if_neg hc] at h ⊢
      obtain ⟨b, hb, hid, hn, hm⟩ := ih h
      exact ⟨b, List.mem_cons_of_mem a hb, hid, hn, hm⟩

/-- Helper: when no alias matches on both name and mount accessor, the scan
returns the empty string. -/
theorem find_alias_eq_empty (aliases : List GroupAlias) (name acc : String)
    (h : ∀ a, a ∈ aliases → ¬(a.name = name ∧ a.mount_accessor = acc)) :
    findVaultGroupAliasIDFromNameAndMount aliases name acc = "" := by
  induction aliases with
  | nil => rfl
  | cons a rest ih =>
    rw [findVaultGroupAliasIDFromNameAndMount, if_neg (h a (List.mem_cons_self a rest))]
    exact ih (fun b hb => h b (List.mem_cons_of_mem a hb))

/-- Helper: when some alias matches on both name and mount accessor and all
alias ids are non-empty, the scan returns a non-empty id. -/
theorem find_alias_ne_empty (aliases : List GroupAlias) (name acc : String)
    (hids : ∀ a, a ∈ aliases → a.id ≠ "")
    (h : ∃ a, a ∈ aliases ∧ a.name = name ∧ a.mount_accessor = acc) :
    findVaultGroupAliasIDFromNameAndMount aliases name acc ≠ "" := by
  induction aliases with
  | nil =>
    obtain ⟨a, ha, _, _⟩ := h
    exact absurd ha (List.not_mem_nil a)
  | cons a rest ih =>
    by_cases hc : a.name = name ∧ a.mount_accessor = acc
    · rw [findVaultGroupAliasIDFromNameAndMount, if_pos hc]
      exact hids a (List.mem_cons_self a rest)
    · rw [findVaultGroupAliasIDFromNameAndMount, if_neg hc]
      refine ih (fun b hb => hids b (List.mem_cons_of_mem a hb)) ?_
      obtain ⟨b, hb, hn, hm⟩ := h
      cases List.mem_cons.mp hb with
      | inl hba => exact absurd ⟨hba ▸ hn, hba ▸ hm⟩ hc
      | inr hbr => exact ⟨b, hbr, hn, hm⟩

/-- C9: group-alias reconciliation matches on the (name, mount accessor)
pair, never on the name alone: a non-empty scan result always belongs to an
alias matching on both (first conjunct); when no alias matches on both —
even if some match on the name — a new alias is created (second conjunct);
when an alias matches on both (ids being non-empty server ids) it is tuned
in place via the scanned id (third conjunct); and the concrete two-mount
scenario — alias `svc` created on mount `accA`, then desired on mount
`accB` — yields two distinct aliases that subsequent runs tune
independently (fourth conjunct). -/
theorem C9_group_alias_matching :
    (∀ (aliases : List GroupAlias) (name acc : String),
      findVaultGroupAliasIDFromNameAndMount aliases name acc ≠ "" →
      ∃ a, a ∈ aliases ∧ a.id = findVaultGroupAliasIDFromNameAndMount aliases name acc ∧
        a.name = name ∧ a.mount_accessor = acc) ∧
    (∀ (aliases : List GroupAlias) (name acc cid : String),
      (∀ a, a ∈ aliases → ¬(a.name = name ∧ a.mount_accessor = acc)) →
      applyGroupAlias aliases name acc cid = AliasAction.create name acc cid) ∧
    (∀ (aliases : List GroupAlias) (name acc cid : String),
      (∀ a, a ∈ aliases → a.id ≠ "") →
      (∃ a, a ∈ aliases ∧ a.name = name ∧ a.mount_accessor = acc) →
      applyGroupAlias aliases name acc cid =
        AliasAction.tune (findVaultGroupAliasIDFromNameAndMount aliases name acc)
          name acc cid) ∧
    ((serverApplyAlias (serverApplyAlias [] "id0" (applyGroupAlias [] "svc" "accA" "gidA"))
        "id1"
        (applyGroupAlias
          (serverApplyAlias [] "id0" (applyGroupAlias [] "svc" "accA" "gidA"))
          "svc" "accB" "gidB")) = twoAliases ∧
      applyGroupAlias twoAliases "svc" "accA" "gidA" =
        AliasAction.tune "id0" "svc" "accA" "gidA" ∧
      applyGroupAlias twoAliases "svc" "accB" "gidB" =
        AliasAction.tune "id1" "svc" "accB" "gidB") := by
  refine ⟨find_alias_matches, ?_, ?_, by decide, by decide, by decide⟩
  · intro aliases name acc cid h
    rw [applyGroupAlias]
    simp [find_alias_eq_empty aliases name acc h]
  · intro aliases name acc cid hids h
    rw [applyGroupAlias]
    simp [find_alias_ne_empty aliases name acc hids h]

/-- C9 witness: the scan and the per-alias decision at concrete inputs —
`svc` on `accB` matches the second alias only, `svc` on an unused mount
creates, and `svc` on `accA` tunes the first alias. -/
theorem C9_group_alias_matching_witness :
    (∃ a, a ∈ twoAliases ∧
      a.id = findVaultGroupAliasIDFromNameAndMount twoAliases "svc" "accB" ∧
      a.name = "svc" ∧ a.mount_accessor = "accB") ∧
    applyGroupAlias twoAliases "svc" "accC" "gid" =
      AliasAction.create "svc" "accC" "gid" ∧
    applyGroupAlias twoAliases "svc" "accA" "gid" =
      AliasAction.tune (findVaultGroupAliasIDFromNameAndMount twoAliases "svc" "accA")
        "svc" "accA" "gid" :=
  ⟨C9_group_alias_matching.1 twoAliases "svc" "accB" (by decide),
    C9_group_alias_matching.2.1 twoAliases "svc" "accC" "gid" (by decide),
    C9_group_alias_matching.2.2.1 twoAliases "svc" "accA" "gid" (by decide) (by decide)⟩

/-- C10: `getOrError` fails exactly when the field is absent from the record
or present with a nil value (first and second conjuncts); any string value,
including the empty string, is accepted (third conjunct); and a plugin
record whose `command` is the empty string passes all four required-field
checks and reaches registration with an empty command (fourth conjunct). -/
theorem C10_plugin_required_fields :
    (∀ (m : List (String × Option String)) (key : String),
      assocFind m key = none →
      getOrError m key = Except.error ("value for " ++ key ++ " is not set")) ∧
    (∀ (m : List (String × Option String)) (key : String),
      assocFind m key = some none →
      getOrError m key = Except.error ("value for " ++ key ++ " is not set")) ∧
    (∀ (m : List (String × Option String)) (key s : String),
      assocFind m key = some (some s) → getOrError m key = Except.ok s) ∧
    (∀ (parseType : String → Except String String)
        (plugin : List (String × Option String)) (n sh t pt : String),
      assocFind plugin "command" = some (some "") →
      assocFind plugin "plugin_name" = some (some n) →
      assocFind plugin "sha256" = some (some sh) →
      assocFind plugin "type" = some (some t) →
      parseType t = Except.ok pt →
      processPlugin parseType plugin = Except.ok ⟨n, "", sh, pt⟩) := by
  refine ⟨?_, ?_, ?_, ?_⟩
  · intro m key h
    simp [getOrError, goMapGet, h]
  · intro m key h
    simp [getOrError, goMapGet, h]
  · intro m key s h
    simp [getOrError, goMapGet, h]
  · intro parseType plugin n sh t pt h1 h2 h3 h4 h5
    simp [processPlugin, getOrError, goMapGet, h1, h2, h3, h4, h5]

/-- C10 witness: a record storing a nil `command` fails the required-field
check, while the record with `command` present as the empty string is
processed into a registration input with an empty command. -/
theorem C10_plugin_required_fields_witness :
    getOrError nilCommandPlugin "command" =
      Except.error ("value for " ++ "command" ++ " is not set") ∧
    getOrError emptyCommandPlugin "command" = Except.ok "" ∧
    processPlugin idParseType emptyCommandPlugin =
      Except.ok ⟨"p", "", "sh", "auth"⟩ :=
  ⟨C10_plugin_required_fields.2.1 nilCommandPlugin "command" (by decide),
    C10_plugin_required_fields.2.2.1 emptyCommandPlugin "command" "" (by decide),
    C10_plugin_required_fields.2.2.2 idParseType emptyCommandPlugin "p" "sh" "auth" "auth"
      (by decide) (by decide) (by decide) (by decide) rfl⟩

end BankVaults
